import Mathlib

/-!
Verification of the browser-worker Cloudflare worker (src/index.ts) against its
natural-language specification.  The definitions below are a shallow embedding
of the worker's session pool, cache-key derivation and request pipeline:

* `SessionInfo`, `Registry` embed the global `sessionCache` map
  (`Map<string, {sessionId, lastUsed, inUse}>`), kept as an insertion-ordered
  list of entries with unique ids, exactly as a JS `Map` iterates.
* `getOptimalSession` embeds the `getOptimalSession` method: idle-timeout
  pruning, listing the authoritative sessions, stale removal, first free
  tracked session, then adoption of an untracked connection-free session.
* `handleContent` embeds the `fetch` handler's `/content/{url}` branch: the
  missing/invalid-URL guards, the KV cache lookup keyed by `computeKey`, the
  acquisition/connect/launch sequence, navigation, extraction, the
  success-path release and KV write, and the catch-path cleanup.
* `btoa`/`computeKey` embed the cache-key derivation
  `"html:" + btoa(reqUrl).replace(/[^a-zA-Z0-9]/g, '')`.
* `legacyStatusCheck` embeds the navigation-response check of the previous
  revision of the worker (the `?url=` handler), which throws
  `Failed to load page: <status>` for any status >= 400; the current
  `/content/` handler performs no such check.

External collaborators (the Browser Service, the KV store, the platform URL
parser) are modelled as oracle fields of a `World` record; the worker's
decisions are pure functions of that oracle, and the Browser Service
operations actually performed are collected in an explicit trace.
-/

namespace BrowserWorker

/-- `SESSION_TIMEOUT = 30 * 60 * 1000` from src/index.ts. -/
def SESSION_TIMEOUT : Nat := 30 * 60 * 1000

/-- `MAX_SESSIONS = 5` from src/index.ts (advisory warm-up ceiling). -/
def MAX_SESSIONS : Nat := 5

/-- One entry of the global `sessionCache` map. -/
structure SessionInfo where
  sessionId : String
  lastUsed : Nat
  inUse : Bool
deriving Repr, DecidableEq

/-- The `sessionCache` map, as an insertion-ordered list with unique ids. -/
abbrev Registry := List SessionInfo

/-- One element of the authoritative list returned by `puppeteer.sessions`:
a session id, tagged with the id of the worker connected to it, if any. -/
structure ActiveSession where
  sessionId : String
  connectionId : Option String
deriving Repr, DecidableEq

/-- The standard base64 alphabet used by `btoa`. -/
def base64Alphabet : String :=
  "ABCDEFGHIJKLMNOPQRSTUVWXYZabcdefghijklmnopqrstuvwxyz0123456789+/"

/-- The base64 digit for a 6-bit value. -/
def b64Char (n : Nat) : Char := base64Alphabet.toList.getD n 'A'

/-- Base64-encode a byte list, three bytes per four output characters, with
`=` padding, as `btoa` does. -/
def btoaGroups : List Nat → List Char
  | [] => []
  | [a] => [b64Char (a / 4), b64Char (a % 4 * 16), '=', '=']
  | [a, b] => [b64Char (a / 4), b64Char (a % 4 * 16 + b / 16), b64Char (b % 16 * 4), '=']
  | a :: b :: c :: rest =>
      b64Char (a / 4) :: b64Char (a % 4 * 16 + b / 16) ::
      b64Char (b % 16 * 4 + c / 64) :: b64Char (c % 64) :: btoaGroups rest

/-- `btoa(s)` for a string of code points below 256 (every URL the worker
normalizes is ASCII once the platform has percent-encoded it). -/
def btoa (s : String) : String := String.mk (btoaGroups (s.toList.map Char.toNat))

/-- The character class kept by `.replace(/[^a-zA-Z0-9]/g, '')`. -/
def isAlphaNum (c : Char) : Bool := c.isAlpha || c.isDigit

/-- The cache key: `"html:" + btoa(reqUrl).replace(/[^a-zA-Z0-9]/g, '')`
(src/index.ts, the `cacheKey` computation of the `/content/` handler). -/
def computeKey (url : String) : String :=
  "html:" ++ String.mk ((btoa url).toList.filter isAlphaNum)

/-- `sessionCache.delete(id)`. -/
def regDelete (reg : Registry) (id : String) : Registry :=
  reg.filter (fun i => i.sessionId != id)

/-- The error-path release `sessionInfo.inUse = false` (the object is aliased
with the registry entry, so the entry itself is updated). -/
def regMarkFree (reg : Registry) (id : String) : Registry :=
  reg.map (fun i => if i.sessionId == id then { i with inUse := false } else i)

/-- `sessionCache.set(info.sessionId, info)`: replace in place, or append. -/
def regSet (reg : Registry) (info : SessionInfo) : Registry :=
  if reg.any (fun i => i.sessionId == info.sessionId) then
    reg.map (fun i => if i.sessionId == info.sessionId then info else i)
  else reg ++ [info]

/-- The success-path release `sessionInfo.inUse = false; sessionInfo.lastUsed
= Date.now()` on the aliased registry entry. -/
def regRelease (reg : Registry) (id : String) (t : Nat) : Registry :=
  reg.map (fun i => if i.sessionId == id then { i with inUse := false, lastUsed := t } else i)

/-- Step 1 of `getOptimalSession`: drop entries with
`now - info.lastUsed > SESSION_TIMEOUT`. -/
def pruneExpired (now : Nat) (reg : Registry) : Registry :=
  reg.filter (fun i => decide (now - i.lastUsed ≤ SESSION_TIMEOUT))

/-- Whether the authoritative list records `id` as free: the first entry with
this id exists and carries no `connectionId`. -/
def isFreeIn (act : List ActiveSession) (id : String) : Bool :=
  match act.find? (fun s => s.sessionId == id) with
  | some a => a.connectionId.isNone
  | none => false

/-- The reuse loop's selection predicate: `!info.inUse &&
activeSessionIds.has(sessionId)` and the found active session has no
`connectionId`. -/
def trackedFree (act : List ActiveSession) (i : SessionInfo) : Bool :=
  !i.inUse && isFreeIn act i.sessionId

/-- The reconciliation pass of `getOptimalSession`: idle pruning followed by
removal of entries absent from the authoritative list. -/
def reconcile (reg : Registry) (now : Nat) (act : List ActiveSession) : Registry :=
  (pruneExpired now reg).filter (fun i => (act.map (·.sessionId)).contains i.sessionId)

/-- Result of `getOptimalSession`: the registry after the call, and the
session handed to the caller, if any. -/
structure AcquireResult where
  reg : Registry
  result : Option SessionInfo
deriving Repr, DecidableEq

/-- `getOptimalSession(endpoint)`: prune expired entries; list the
authoritative sessions (`listing = none` models a failed
`puppeteer.sessions` call, after which the method returns `null`); drop
stale entries; return the first free tracked session, marked busy; failing
that, adopt the first untracked connection-free authoritative session. -/
def getOptimalSession (reg : Registry) (now : Nat)
    (listing : Option (List ActiveSession)) : AcquireResult :=
  match listing with
  | none => ⟨pruneExpired now reg, none⟩
  | some act =>
    match (reconcile reg now act).find? (trackedFree act) with
    | some j =>
        ⟨(reconcile reg now act).map
            (fun i => if i.sessionId == j.sessionId
              then { j with inUse := true, lastUsed := now } else i),
         some { j with inUse := true, lastUsed := now }⟩
    | none =>
        match act.filter
            (fun s => s.connectionId.isNone
              && !((reconcile reg now act).any (fun i => i.sessionId == s.sessionId))) with
        | [] => ⟨reconcile reg now act, none⟩
        | s :: _ =>
            ⟨reconcile reg now act ++ [⟨s.sessionId, now, true⟩],
             some ⟨s.sessionId, now, true⟩⟩

/-- A Browser Service operation performed by the handler. -/
inductive BrowserOp where
  | listSessions
  | connect (id : String)
  | launch
  | goto (url : String)
  | extractContent
deriving Repr, DecidableEq

/-- Outcome of `page.goto`: resolves with a response status, or throws. -/
inductive NavOutcome where
  | ok (status : Nat)
  | err (msg : String)
deriving Repr, DecidableEq

/-- Outcome of `page.content()`: the rendered HTML, or a thrown error. -/
inductive ExtractOutcome where
  | ok (html : String)
  | err (msg : String)
deriving Repr, DecidableEq

/-- The handler's response, reduced to what the claims mention: a 200 HTML
body, or a JSON fault body with its HTTP status and `error` field. -/
inductive WResponse where
  | htmlPage (body : String)
  | jsonError (status : Nat) (error : String)
deriving Repr, DecidableEq

/-- The oracle for one request: the pre-state of the worker and the outcomes
of every external call the handler may make. -/
structure World where
  registry : Registry
  now : Nat
  finishTime : Nat
  kvPresent : Bool
  kvGet : String → Option String
  urlParse : String → Option String
  listing : Option (List ActiveSession)
  connectOk : String → Bool
  launchedId : Option String
  nav : NavOutcome
  extract : ExtractOutcome

/-- What one request produced: the response, the trace of Browser Service
operations, the KV writes, and the registry afterwards. -/
structure HandleResult where
  response : WResponse
  ops : List BrowserOp
  cacheWrites : List (String × String)
  registry : Registry
deriving Repr, DecidableEq

/-- Whether the character list `t` starts with the character list `p`. -/
def charsStart : List Char → List Char → Bool
  | [], _ => true
  | _ :: _, [] => false
  | a :: as, b :: bs => a == b && charsStart as bs

/-- Whether the character list `p` occurs contiguously inside `t`. -/
def charsContain (p : List Char) : List Char → Bool
  | [] => charsStart p []
  | c :: cs => charsStart p (c :: cs) || charsContain p cs

/-- `s.includes(pat)`: substring containment. -/
def strIncludes (s pat : String) : Bool := charsContain pat.toList s.toList

/-- The message fragment the catch block tests for with
`error.message.includes('Cannot read properties of null')`. -/
def nullReadMsg : String := "Cannot read properties of null"

/-- The KV lookup: only performed when `env.HTML_CACHE` is bound; a read
error is caught and treated as a miss, so a failed read is also `none`. -/
def cacheLookup (w : World) (key : String) : Option String :=
  if w.kvPresent then w.kvGet key else none

/-- State after the connect step: the registry, the `launched` flag, the
held `sessionInfo`, and the trace of operations performed. -/
structure ConnectResult where
  reg : Registry
  launched : Bool
  held : Option SessionInfo
  ops : List BrowserOp
deriving Repr, DecidableEq

/-- The connect step of the handler: on a session from `getOptimalSession`,
try `puppeteer.connect`; on failure delete the entry, null out
`sessionInfo`, and launch; with no session, launch directly. -/
def connectPhase (reg : Registry) (acq : Option SessionInfo) (ck : String → Bool) :
    ConnectResult :=
  match acq with
  | some si =>
      if ck si.sessionId then ⟨reg, false, some si, [BrowserOp.connect si.sessionId]⟩
      else ⟨regDelete reg si.sessionId, true, none,
        [BrowserOp.connect si.sessionId, BrowserOp.launch]⟩
  | none => ⟨reg, true, none, [BrowserOp.launch]⟩

/-- The catch-block cleanup: with a held `sessionInfo`, delete the entry when
the error message includes `Cannot read properties of null`, otherwise mark
it free; with none held, leave the registry alone. -/
def errorCleanup (reg : Registry) (si : Option SessionInfo) (msg : String) : Registry :=
  match si with
  | some info =>
      if strIncludes msg nullReadMsg then regDelete reg info.sessionId
      else regMarkFree reg info.sessionId
  | none => reg

/-- The success-path release: a launched browser's id (when truthy) is
inserted as a free entry and the browser disconnected; a reused session is
marked free with `lastUsed` refreshed. -/
def successRelease (reg : Registry) (launched : Bool) (launchedId : Option String)
    (si : Option SessionInfo) (t : Nat) : Registry :=
  if launched then
    match launchedId with
    | some nid => regSet reg ⟨nid, t, false⟩
    | none => reg
  else
    match si with
    | some info => regRelease reg info.sessionId t
    | none => reg

/-- The 400 body for an empty `/content/` path suffix. -/
def missingTargetMsg : String :=
  "Missing target URL in path. Usage: /content/https://example.com"

/-- The 400 body for an unparsable target. -/
def invalidUrlMsg : String := "Invalid URL format"

/-- Session acquisition as the handler performs it: `getOptimalSession` on
the request's pre-state, then the connect-or-launch step. -/
def acquirePhase (w : World) : ConnectResult :=
  connectPhase (getOptimalSession w.registry w.now w.listing).reg
    (getOptimalSession w.registry w.now w.listing).result w.connectOk

/-- The rendering part of the handler, after the cache miss: navigate (the
resolved navigation status is ignored, as in the source), extract the
content, release the session, write the KV cache, and respond; a navigation
or extraction error takes the catch path: cleanup, no KV write, and a 500
JSON body carrying the error message. -/
def afterAcquire (w : World) (reqUrl : String) : HandleResult :=
  match w.nav with
  | NavOutcome.err msg =>
      ⟨WResponse.jsonError 500 msg,
       BrowserOp.listSessions :: (acquirePhase w).ops ++ [BrowserOp.goto reqUrl], [],
       errorCleanup (acquirePhase w).reg (acquirePhase w).held msg⟩
  | NavOutcome.ok _ =>
    match w.extract with
    | ExtractOutcome.err msg =>
        ⟨WResponse.jsonError 500 msg,
         BrowserOp.listSessions :: (acquirePhase w).ops
           ++ [BrowserOp.goto reqUrl, BrowserOp.extractContent], [],
         errorCleanup (acquirePhase w).reg (acquirePhase w).held msg⟩
    | ExtractOutcome.ok html =>
        ⟨WResponse.htmlPage html,
         BrowserOp.listSessions :: (acquirePhase w).ops
           ++ [BrowserOp.goto reqUrl, BrowserOp.extractContent],
         (if w.kvPresent then [(computeKey reqUrl, html)] else []),
         successRelease (acquirePhase w).reg (acquirePhase w).launched
           w.launchedId (acquirePhase w).held w.finishTime⟩

/-- The `/content/{target}` branch of the `fetch` handler: guard the empty
target; decode+parse the URL (`urlParse` models `decodeURIComponent` plus
`new URL(...).toString()`, `none` meaning either threw); on a KV hit return
the cached body untouched; otherwise render via `afterAcquire`. -/
def handleContent (w : World) (target : String) : HandleResult :=
  if target = "" then
    ⟨WResponse.jsonError 400 missingTargetMsg, [], [], w.registry⟩
  else
    match w.urlParse target with
    | none => ⟨WResponse.jsonError 400 invalidUrlMsg, [], [], w.registry⟩
    | some reqUrl =>
      match cacheLookup w (computeKey reqUrl) with
      | some cached => ⟨WResponse.htmlPage cached, [], [], w.registry⟩
      | none => afterAcquire w reqUrl

/-- The previous revision's navigation check (the `?url=` handler): no
response throws `Failed to load page: No response received`; a status of 400
or more throws `Failed to load page: <status>`. -/
def legacyStatusCheck (resp : Option Nat) : Except String Unit :=
  match resp with
  | none => Except.error "Failed to load page: No response received"
  | some status =>
      if status ≥ 400 then Except.error ("Failed to load page: " ++ toString status)
      else Except.ok ()

/-! ### Concrete scenario worlds used by witnesses and counterexamples -/

/-- A request whose target neither decodes nor parses as a URL. -/
def worldBadUrl : World where
  registry := []
  now := 0
  finishTime := 0
  kvPresent := false
  kvGet := fun _ => none
  urlParse := fun _ => none
  listing := some []
  connectOk := fun _ => true
  launchedId := none
  nav := NavOutcome.ok 200
  extract := ExtractOutcome.ok ""

/-- A request whose target has a fresh Content Store entry. -/
def worldHit : World where
  registry := [⟨"s1", 0, false⟩]
  now := 0
  finishTime := 0
  kvPresent := true
  kvGet := fun k => if k = computeKey "https://example.com/" then some "<html>cached</html>" else none
  urlParse := fun s => if s = "https://example.com/" then some "https://example.com/" else none
  listing := some [⟨"s1", none⟩]
  connectOk := fun _ => true
  launchedId := none
  nav := NavOutcome.ok 200
  extract := ExtractOutcome.ok "<html>fresh</html>"

/-- A request that reuses tracked free session `s1` and then hits a
navigation timeout — an upstream fault whose message does not mention a
null property read. -/
def worldTimeout : World where
  registry := [⟨"s1", 0, false⟩]
  now := 0
  finishTime := 0
  kvPresent := true
  kvGet := fun _ => none
  urlParse := fun s => if s = "https://example.com/" then some "https://example.com/" else none
  listing := some [⟨"s1", none⟩]
  connectOk := fun _ => true
  launchedId := none
  nav := NavOutcome.err "Navigation timeout of 15000 ms exceeded"
  extract := ExtractOutcome.ok "<html>never</html>"

/-- A request whose target page answers with HTTP status 404: navigation
resolves (with status 404), extraction returns the rendered 404 page. -/
def world404 : World where
  registry := []
  now := 0
  finishTime := 1000
  kvPresent := true
  kvGet := fun _ => none
  urlParse := fun s =>
    if s = "https%3A%2F%2Fexample.com%2Fmissing" then some "https://example.com/missing" else none
  listing := some []
  connectOk := fun _ => true
  launchedId := some "sessionNew"
  nav := NavOutcome.ok 404
  extract := ExtractOutcome.ok "<html>Not Found</html>"

/-- A request during which the `puppeteer.sessions` listing fails and every
later step succeeds. -/
def worldListFail : World where
  registry := [⟨"s1", 0, false⟩]
  now := 0
  finishTime := 1000
  kvPresent := false
  kvGet := fun _ => none
  urlParse := fun s => if s = "https://example.com/" then some "https://example.com/" else none
  listing := none
  connectOk := fun _ => true
  launchedId := some "sessionNew"
  nav := NavOutcome.ok 200
  extract := ExtractOutcome.ok "<html>ok</html>"

/-- A request that reaches rendering and fails during extraction. -/
def worldExtractErr : World where
  registry := []
  now := 0
  finishTime := 0
  kvPresent := true
  kvGet := fun _ => none
  urlParse := fun s => if s = "https://example.com/" then some "https://example.com/" else none
  listing := some []
  connectOk := fun _ => true
  launchedId := none
  nav := NavOutcome.ok 200
  extract := ExtractOutcome.err "Evaluation failed: ReferenceError"

/-! ### Helper lemmas -/

/-- `String.data` distributes over append. -/
lemma stringDataAppend (a b : String) : (a ++ b).data = a.data ++ b.data := by
  cases a; cases b; rfl

/-! ### Claim C3 — cache-key injectivity -/

/-- Claim C3 counterexample: the cache-key function is not injective.  The
distinct normalized URLs `https://example.com/` and `https://example.com/?`
receive the same cache key, because base64 encodes the first to
`aHR0cHM6Ly9leGFtcGxlLmNvbS8=` and the second to
`aHR0cHM6Ly9leGFtcGxlLmNvbS8/`, and the stripping of non-alphanumerics
erases exactly the characters that distinguish them. -/
theorem c3_computeKey_collision :
    computeKey "https://example.com/" = computeKey "https://example.com/?"
    ∧ "https://example.com/" ≠ "https://example.com/?" := by
  exact ⟨rfl, by decide⟩

/-- Claim C3 (amended): `computeKey` is a pure deterministic function whose
output is composed only of URL-safe characters — the fixed tag `html:`
followed by alphanumerics, so every character of every key is alphanumeric
or the colon — but it is not injective on distinct URLs. -/
theorem c3_computeKey_urlsafe (u : String) (c : Char)
    (hc : c ∈ (computeKey u).data) :
    (c.isAlpha || c.isDigit || c == ':') = true := by
  unfold computeKey at hc
  rw [stringDataAppend] at hc
  rcases List.mem_append.mp hc with h1 | h2
  · have hall : ∀ x ∈ "html:".data, (x.isAlpha || x.isDigit || x == ':') = true := by decide
    exact hall c h1
  · have hpred := (List.mem_filter.mp h2).2
    unfold isAlphaNum at hpred
    rcases (by simpa using hpred : c.isAlpha = true ∨ c.isDigit = true) with h | h <;> simp [h]

/-- Witness for `c3_computeKey_urlsafe` at a concrete key character. -/
theorem c3_computeKey_urlsafe_witness :
    ('h' ∈ (computeKey "https://example.com/").data)
    ∧ ('h'.isAlpha || 'h'.isDigit || 'h' == ':') = true :=
  ⟨by decide, c3_computeKey_urlsafe "https://example.com/" 'h' (by decide)⟩

/-! ### Claim C9 — malformed target URL -/

/-- Claim C9: a target that fails to parse as a URL after percent-decoding
produces a 400 response with error `Invalid URL format`, with no Browser
Service operation, no cache write and no registry change. -/
theorem c9_invalid_url_rejected (w : World) (target : String)
    (h0 : target ≠ "") (h1 : w.urlParse target = none) :
    handleContent w target =
      ⟨WResponse.jsonError 400 invalidUrlMsg, [], [], w.registry⟩ := by
  unfold handleContent
  rw [if_neg h0, h1]

/-- Witness for `c9_invalid_url_rejected` on the spec's `not-a-url` input. -/
theorem c9_invalid_url_rejected_witness :
    ("not-a-url" ≠ "" ∧ worldBadUrl.urlParse "not-a-url" = none)
    ∧ handleContent worldBadUrl "not-a-url" =
      ⟨WResponse.jsonError 400 invalidUrlMsg, [], [], worldBadUrl.registry⟩ :=
  ⟨⟨by decide, rfl⟩, c9_invalid_url_rejected worldBadUrl "not-a-url" (by decide) rfl⟩

/-! ### Claim C7 — cache hit short-circuits -/

/-- Claim C7: when the normalized target has a fresh Content Store entry,
the handler returns the cached payload with an empty Browser Service trace
(no listing, no connect, no launch, no navigation), no cache write, and an
unchanged registry. -/
theorem c7_cache_hit_short_circuits (w : World) (target u payload : String)
    (h0 : target ≠ "") (h1 : w.urlParse target = some u)
    (h2 : cacheLookup w (computeKey u) = some payload) :
    handleContent w target = ⟨WResponse.htmlPage payload, [], [], w.registry⟩ := by
  unfold handleContent
  rw [if_neg h0]
  simp only [h1, h2]

/-- Witness for `c7_cache_hit_short_circuits` on a concrete cached world. -/
theorem c7_cache_hit_short_circuits_witness :
    ("https://example.com/" ≠ ""
      ∧ worldHit.urlParse "https://example.com/" = some "https://example.com/"
      ∧ cacheLookup worldHit (computeKey "https://example.com/") = some "<html>cached</html>")
    ∧ handleContent worldHit "https://example.com/" =
      ⟨WResponse.htmlPage "<html>cached</html>", [], [], worldHit.registry⟩ :=
  ⟨⟨by decide, by decide, by decide⟩,
   c7_cache_hit_short_circuits worldHit "https://example.com/" "https://example.com/"
     "<html>cached</html>" (by decide) (by decide) (by decide)⟩

/-! ### Claim C2 — error-path session release -/

/-- Claim C2 counterexample: a render timeout is an upstream fault incurred
while holding registry session `s1` (acquisition returned it), yet the
error-path release keeps the entry — marked free — instead of discarding
it, so the session stays available for a later allocation. -/
theorem c2_timeout_keeps_session :
    (getOptimalSession worldTimeout.registry worldTimeout.now worldTimeout.listing).result
      = some ⟨"s1", 0, true⟩
    ∧ (handleContent worldTimeout "https://example.com/").response
      = WResponse.jsonError 500 "Navigation timeout of 15000 ms exceeded"
    ∧ (handleContent worldTimeout "https://example.com/").registry
      = [⟨"s1", 0, false⟩] := by
  exact ⟨rfl, rfl, rfl⟩

/-- Claim C2 (amended): the error-path release discards the held session's
registry entry only when the fault's message contains
`Cannot read properties of null` (the stale-handle case); on any other
upstream fault the entry is kept and merely marked free. -/
theorem c2_error_release_cases (reg : Registry) (info : SessionInfo) (msg : String)
    (hmem : info ∈ reg) :
    (strIncludes msg nullReadMsg = true →
      ∀ j ∈ errorCleanup reg (some info) msg, j.sessionId ≠ info.sessionId)
    ∧ (strIncludes msg nullReadMsg = false →
      ∃ j ∈ errorCleanup reg (some info) msg, j.sessionId = info.sessionId ∧ j.inUse = false) := by
  constructor
  · intro hinc j hj
    simp only [errorCleanup, hinc, if_true, regDelete] at hj
    have := (List.mem_filter.mp hj).2
    simpa using this
  · intro hinc
    refine ⟨{ info with inUse := false }, ?_, rfl, rfl⟩
    simp only [errorCleanup, hinc, Bool.false_eq_true, if_false, regMarkFree]
    exact List.mem_map.mpr ⟨info, hmem, by simp⟩

/-- Witness for `c2_error_release_cases` on the timeout message. -/
theorem c2_error_release_cases_witness :
    ((⟨"s1", 0, true⟩ : SessionInfo) ∈ ([⟨"s1", 0, true⟩] : Registry))
    ∧ ∃ j ∈ errorCleanup [⟨"s1", 0, true⟩] (some ⟨"s1", 0, true⟩)
        "Navigation timeout of 15000 ms exceeded",
        j.sessionId = "s1" ∧ j.inUse = false :=
  ⟨by decide,
   (c2_error_release_cases [⟨"s1", 0, true⟩] ⟨"s1", 0, true⟩
     "Navigation timeout of 15000 ms exceeded" (by decide)).2 (by decide)⟩

/-! ### Claim C1 — target status 404 -/

/-- Claim C1: in the `/content/` handler a target page answering 404 is not
treated as a render fault: the handler returns a 200 HTML response carrying
the rendered 404 page, writes it to the cache, and behaves identically to a
200 target; the `Failed to load page: 404` fault of the claim is produced
only by the previous revision's status check, which the current handler
does not perform. -/
theorem c1_status_404_not_a_fault :
    (handleContent world404 "https%3A%2F%2Fexample.com%2Fmissing").response
      = WResponse.htmlPage "<html>Not Found</html>"
    ∧ (handleContent world404 "https%3A%2F%2Fexample.com%2Fmissing").cacheWrites
      = [(computeKey "https://example.com/missing", "<html>Not Found</html>")]
    ∧ handleContent { world404 with nav := NavOutcome.ok 200 } "https%3A%2F%2Fexample.com%2Fmissing"
      = handleContent world404 "https%3A%2F%2Fexample.com%2Fmissing"
    ∧ legacyStatusCheck (some 404) = Except.error "Failed to load page: 404" := by
  exact ⟨rfl, rfl, rfl, rfl⟩

/-! ### Claim C10 — no cache write on the error path -/

/-- Claim C10: every request that ends in a 500 fault response performs no
Content Store write: only the fully successful render path writes. -/
theorem c10_error_path_no_cache_write (w : World) (target msg : String)
    (h : (handleContent w target).response = WResponse.jsonError 500 msg) :
    (handleContent w target).cacheWrites = [] := by
  by_cases h0 : target = ""
  · unfold handleContent at h
    rw [if_pos h0] at h
    simp at h
  · cases hp : w.urlParse target with
    | none =>
      unfold handleContent at h
      rw [if_neg h0, hp] at h
      simp at h
    | some u =>
      have he : handleContent w target =
          (match cacheLookup w (computeKey u) with
            | some cached => (⟨WResponse.htmlPage cached, [], [], w.registry⟩ : HandleResult)
            | none => afterAcquire w u) := by
        unfold handleContent
        rw [if_neg h0, hp]
      rw [he] at h ⊢
      cases hc : cacheLookup w (computeKey u) with
      | some cached => simp only [hc] at h; simp at h
      | none =>
        simp only [hc] at h
        unfold afterAcquire at h ⊢
        cases hnav : w.nav with
        | err m => rfl
        | ok st =>
          simp only [hnav] at h
          cases hext : w.extract with
          | err m => rfl
          | ok html => simp only [hext] at h; simp at h

/-- Witness for `c10_error_path_no_cache_write` on an extraction fault. -/
theorem c10_error_path_no_cache_write_witness :
    (handleContent worldExtractErr "https://example.com/").response
      = WResponse.jsonError 500 "Evaluation failed: ReferenceError"
    ∧ (handleContent worldExtractErr "https://example.com/").cacheWrites = [] :=
  ⟨rfl, c10_error_path_no_cache_write worldExtractErr "https://example.com/"
    "Evaluation failed: ReferenceError" rfl⟩

/-! ### Claim C8 — listing failure is fail-safe -/

/-- Claim C8: a failed session-listing query makes `getOptimalSession`
report no session rather than propagate the error, after which the handler
launches a brand-new session; with the rest of the render succeeding the
request still succeeds. -/
theorem c8_listing_failure_fail_safe :
    (∀ (reg : Registry) (now : Nat), (getOptimalSession reg now none).result = none)
    ∧ (∀ (w : World) (target u : String) (st : Nat) (html : String),
        target ≠ "" → w.urlParse target = some u →
        cacheLookup w (computeKey u) = none →
        w.listing = none → w.nav = NavOutcome.ok st →
        w.extract = ExtractOutcome.ok html →
        (handleContent w target).response = WResponse.htmlPage html
        ∧ BrowserOp.launch ∈ (handleContent w target).ops) := by
  constructor
  · intro reg now; rfl
  · intro w target u st html h0 h1 h2 h3 h4 h5
    have hres : handleContent w target = afterAcquire w u := by
      unfold handleContent
      rw [if_neg h0]
      simp only [h1, h2]
    have hacq : acquirePhase w = ⟨pruneExpired w.now w.registry, true, none, [BrowserOp.launch]⟩ := by
      unfold acquirePhase
      rw [h3]
      rfl
    rw [hres]
    unfold afterAcquire
    rw [h4, h5, hacq]
    exact ⟨rfl, by simp⟩

/-- Witness for `c8_listing_failure_fail_safe` on a concrete failed-listing
request. -/
theorem c8_listing_failure_fail_safe_witness :
    ("https://example.com/" ≠ ""
      ∧ worldListFail.urlParse "https://example.com/" = some "https://example.com/"
      ∧ cacheLookup worldListFail (computeKey "https://example.com/") = none
      ∧ worldListFail.listing = none
      ∧ worldListFail.nav = NavOutcome.ok 200
      ∧ worldListFail.extract = ExtractOutcome.ok "<html>ok</html>")
    ∧ ((handleContent worldListFail "https://example.com/").response
        = WResponse.htmlPage "<html>ok</html>"
      ∧ BrowserOp.launch ∈ (handleContent worldListFail "https://example.com/").ops) :=
  ⟨⟨by decide, by decide, rfl, rfl, rfl, rfl⟩,
   c8_listing_failure_fail_safe.2 worldListFail "https://example.com/" "https://example.com/"
     200 "<html>ok</html>" (by decide) (by decide) rfl rfl rfl rfl⟩

/-! ### Claim C4 — reconciliation removes stale entries -/

/-- Claim C4: after the reconciliation pass inside `getOptimalSession`, no
registry entry remains whose sessionId is absent from the authoritative
list, and the allocation decision that follows preserves this. -/
theorem c4_reconcile_removes_stale (reg : Registry) (now : Nat) (act : List ActiveSession) :
    (∀ i ∈ reconcile reg now act, i.sessionId ∈ act.map (·.sessionId))
    ∧ (∀ i ∈ (getOptimalSession reg now (some act)).reg,
        i.sessionId ∈ act.map (·.sessionId)) := by
  have hrec : ∀ i ∈ reconcile reg now act, i.sessionId ∈ act.map (·.sessionId) := by
    intro i hi
    have hco := (List.mem_filter.mp hi).2
    exact List.mem_of_elem_eq_true hco
  refine ⟨hrec, ?_⟩
  intro i hi
  unfold getOptimalSession at hi
  cases hfind : (reconcile reg now act).find? (trackedFree act) with
  | some j =>
    simp only [hfind] at hi
    rcases List.mem_map.mp hi with ⟨x, hx, hfx⟩
    by_cases hxe : (x.sessionId == j.sessionId) = true
    · rw [if_pos hxe] at hfx
      subst hfx
      exact hrec j (List.mem_of_find?_eq_some hfind)
    · rw [if_neg hxe] at hfx
      subst hfx
      exact hrec x hx
  | none =>
    simp only [hfind] at hi
    cases hfil : act.filter
        (fun s => s.connectionId.isNone
          && !((reconcile reg now act).any (fun i => i.sessionId == s.sessionId))) with
    | nil =>
      simp only [hfil] at hi
      exact hrec i hi
    | cons s rest =>
      simp only [hfil] at hi
      rcases List.mem_append.mp hi with h1 | h2
      · exact hrec i h1
      · have his : i = ⟨s.sessionId, now, true⟩ := by simpa using h2
        subst his
        have hsf : s ∈ act.filter
            (fun s => s.connectionId.isNone
              && !((reconcile reg now act).any (fun i => i.sessionId == s.sessionId))) := by
          rw [hfil]
          exact List.mem_cons_self s rest
        exact List.mem_map.mpr ⟨s, (List.mem_filter.mp hsf).1, rfl⟩

/-- Witness for `c4_reconcile_removes_stale`: entry `a` survives reconciling
against an authoritative list containing it. -/
theorem c4_reconcile_removes_stale_witness :
    ((⟨"a", 0, false⟩ : SessionInfo) ∈ reconcile [⟨"a", 0, false⟩, ⟨"b", 0, false⟩] 0 [⟨"a", none⟩])
    ∧ (⟨"a", 0, false⟩ : SessionInfo).sessionId
        ∈ ([⟨"a", none⟩] : List ActiveSession).map (·.sessionId) :=
  ⟨by decide,
   (c4_reconcile_removes_stale [⟨"a", 0, false⟩, ⟨"b", 0, false⟩] 0 [⟨"a", none⟩]).1
     ⟨"a", 0, false⟩ (by decide)⟩

/-! ### Claim C5 — what an acquired existing session satisfies -/

/-- Claim C5: whenever `getOptimalSession` returns a session, that session
appears in the authoritative list without an external connection, was not
marked busy before (it was a tracked free entry, or entirely untracked), is
returned busy with `lastUsed` refreshed and recorded as such in the
registry, and tracked free sessions are preferred over untracked ones. -/
theorem c5_acquired_session_invariants (reg : Registry) (now : Nat)
    (act : List ActiveSession) (reg' : Registry) (i : SessionInfo)
    (h : getOptimalSession reg now (some act) = ⟨reg', some i⟩) :
    (∃ a ∈ act, a.sessionId = i.sessionId ∧ a.connectionId = none)
    ∧ i.inUse = true ∧ i.lastUsed = now
    ∧ i ∈ reg'
    ∧ ((∃ j ∈ reconcile reg now act, j.sessionId = i.sessionId ∧ j.inUse = false)
        ∨ (∀ j ∈ reconcile reg now act, j.sessionId ≠ i.sessionId))
    ∧ ((∃ j ∈ reconcile reg now act, trackedFree act j = true)
        → ∃ j ∈ reconcile reg now act, j.sessionId = i.sessionId) := by
  unfold getOptimalSession at h
  cases hfind : (reconcile reg now act).find? (trackedFree act) with
  | some j =>
    simp only [hfind] at h
    injection h with hreg hres
    injection hres with hi
    subst hreg
    subst hi
    have hmemj := List.mem_of_find?_eq_some hfind
    have hpj := List.find?_some hfind
    unfold trackedFree at hpj
    rw [Bool.and_eq_true] at hpj
    obtain ⟨hnb, hfree⟩ := hpj
    have hbusy : j.inUse = false := by simpa using hnb
    unfold isFreeIn at hfree
    cases hfa : act.find? (fun s => s.sessionId == j.sessionId) with
    | none => simp only [hfa] at hfree; cases hfree
    | some a =>
      simp only [hfa] at hfree
      have haeq := List.find?_some hfa
      simp only [beq_iff_eq] at haeq
      refine ⟨⟨a, List.mem_of_find?_eq_some hfa, haeq, Option.isNone_iff_eq_none.mp hfree⟩,
        rfl, rfl, ?_, Or.inl ⟨j, hmemj, rfl, hbusy⟩, fun _ => ⟨j, hmemj, rfl⟩⟩
      exact List.mem_map.mpr ⟨j, hmemj, by simp⟩
  | none =>
    simp only [hfind] at h
    cases hfil : act.filter
        (fun s => s.connectionId.isNone
          && !((reconcile reg now act).any (fun i => i.sessionId == s.sessionId))) with
    | nil =>
      simp only [hfil] at h
      injection h with hreg hres
      exact Option.noConfusion hres
    | cons s rest =>
      simp only [hfil] at h
      injection h with hreg hres
      injection hres with hi
      subst hreg
      subst hi
      have hsf : s ∈ act.filter
          (fun s => s.connectionId.isNone
            && !((reconcile reg now act).any (fun i => i.sessionId == s.sessionId))) := by
        rw [hfil]
        exact List.mem_cons_self s rest
      obtain ⟨hs, hps⟩ := List.mem_filter.mp hsf
      rw [Bool.and_eq_true] at hps
      obtain ⟨hconn, hnotany⟩ := hps
      refine ⟨⟨s, hs, rfl, Option.isNone_iff_eq_none.mp hconn⟩, rfl, rfl,
        List.mem_append.mpr (Or.inr (List.mem_cons_self _ _)), Or.inr ?_, ?_⟩
      · intro j hj heq
        have hanyt : (reconcile reg now act).any (fun x => x.sessionId == s.sessionId) = true :=
          List.any_eq_true.mpr ⟨j, hj, by simp [heq]⟩
        simp [hanyt] at hnotany
      · intro hex
        obtain ⟨j, hj, htf⟩ := hex
        exact absurd htf (by simpa using List.find?_eq_none.mp hfind j hj)

/-- Witness for `c5_acquired_session_invariants` on a tracked free session. -/
theorem c5_acquired_session_invariants_witness :
    (getOptimalSession [⟨"s1", 0, false⟩] 0 (some [⟨"s1", none⟩])
      = ⟨[⟨"s1", 0, true⟩], some ⟨"s1", 0, true⟩⟩)
    ∧ ((∃ a ∈ ([⟨"s1", none⟩] : List ActiveSession),
          a.sessionId = (⟨"s1", 0, true⟩ : SessionInfo).sessionId ∧ a.connectionId = none)
      ∧ (⟨"s1", 0, true⟩ : SessionInfo).inUse = true
      ∧ (⟨"s1", 0, true⟩ : SessionInfo).lastUsed = 0
      ∧ (⟨"s1", 0, true⟩ : SessionInfo) ∈ ([⟨"s1", 0, true⟩] : Registry)
      ∧ ((∃ j ∈ reconcile [⟨"s1", 0, false⟩] 0 [⟨"s1", none⟩],
            j.sessionId = (⟨"s1", 0, true⟩ : SessionInfo).sessionId ∧ j.inUse = false)
          ∨ (∀ j ∈ reconcile [⟨"s1", 0, false⟩] 0 [⟨"s1", none⟩],
              j.sessionId ≠ (⟨"s1", 0, true⟩ : SessionInfo).sessionId))
      ∧ ((∃ j ∈ reconcile [⟨"s1", 0, false⟩] 0 [⟨"s1", none⟩], trackedFree [⟨"s1", none⟩] j = true)
          → ∃ j ∈ reconcile [⟨"s1", 0, false⟩] 0 [⟨"s1", none⟩],
              j.sessionId = (⟨"s1", 0, true⟩ : SessionInfo).sessionId)) :=
  ⟨by decide,
   c5_acquired_session_invariants [⟨"s1", 0, false⟩] 0 [⟨"s1", none⟩]
     [⟨"s1", 0, true⟩] ⟨"s1", 0, true⟩ (by decide)⟩

/-! ### Claim C6 — connect failure discards and provisions -/

/-- The acquisition step leaves one of three operation traces: a bare
launch, a single successful connect, or a failed connect followed by a
launch. -/
lemma acquirePhase_ops_shapes (w : World) :
    (acquirePhase w).ops = [BrowserOp.launch]
    ∨ (∃ x, (acquirePhase w).ops = [BrowserOp.connect x])
    ∨ (∃ x, (acquirePhase w).ops = [BrowserOp.connect x, BrowserOp.launch]) := by
  unfold acquirePhase
  cases hres : (getOptimalSession w.registry w.now w.listing).result with
  | none => exact Or.inl rfl
  | some si =>
    simp only [hres, connectPhase]
    by_cases hck : w.connectOk si.sessionId = true
    · rw [if_pos hck]
      exact Or.inr (Or.inl ⟨si.sessionId, rfl⟩)
    · rw [if_neg hck]
      exact Or.inr (Or.inr ⟨si.sessionId, rfl⟩)

/-- Any single request performs at most one connect attempt towards any
given session id. -/
lemma connect_count_le_one (w : World) (target id : String) :
    (handleContent w target).ops.count (BrowserOp.connect id) ≤ 1 := by
  have hone : ∀ (x : String),
      List.count (BrowserOp.connect id) [BrowserOp.connect x] ≤ 1 := by
    intro x
    by_cases hx : id = x
    · subst hx
      simp [List.count_cons]
    · simp [List.count_cons, hx]
  have hacq : (acquirePhase w).ops.count (BrowserOp.connect id) ≤ 1 := by
    rcases acquirePhase_ops_shapes w with h | ⟨x, h⟩ | ⟨x, h⟩ <;> rw [h]
    · simp
    · exact hone x
    · have := hone x
      simpa [List.count_cons] using this
  unfold handleContent
  by_cases h0 : target = ""
  · rw [if_pos h0]
    simp
  · rw [if_neg h0]
    cases hp : w.urlParse target with
    | none => simp only [hp]; simp
    | some u =>
      simp only [hp]
      cases hc : cacheLookup w (computeKey u) with
      | some cached => simp only [hc]; simp
      | none =>
        simp only [hc]
        unfold afterAcquire
        cases hnav : w.nav with
        | err m =>
          simp only [hnav]
          simpa [List.count_cons, List.count_append] using hacq
        | ok st =>
          simp only [hnav]
          cases hext : w.extract with
          | err m =>
            simp only [hext]
            simpa [List.count_cons, List.count_append] using hacq
          | ok html =>
            simp only [hext]
            simpa [List.count_cons, List.count_append] using hacq

/-- Claim C6: when connecting to the chosen existing session fails, the
handler removes that session's registry entry, holds no session, falls back
to launching a brand-new one, and — as for every request — never issues a
second connect attempt towards the failed session within the same request. -/
theorem c6_connect_failure_discards (reg : Registry) (si : SessionInfo)
    (ck : String → Bool) (h : ck si.sessionId = false) :
    (∀ j ∈ (connectPhase reg (some si) ck).reg, j.sessionId ≠ si.sessionId)
    ∧ (connectPhase reg (some si) ck).launched = true
    ∧ (connectPhase reg (some si) ck).held = none
    ∧ (connectPhase reg (some si) ck).ops
        = [BrowserOp.connect si.sessionId, BrowserOp.launch]
    ∧ (∀ (w : World) (target id : String),
        (handleContent w target).ops.count (BrowserOp.connect id) ≤ 1) := by
  have hcp : connectPhase reg (some si) ck
      = ⟨regDelete reg si.sessionId, true, none,
         [BrowserOp.connect si.sessionId, BrowserOp.launch]⟩ := by
    simp [connectPhase, h]
  refine ⟨?_, by rw [hcp], by rw [hcp], by rw [hcp],
    fun w target id => connect_count_le_one w target id⟩
  intro j hj
  rw [hcp] at hj
  have := (List.mem_filter.mp hj).2
  simpa using this

/-- Witness for `c6_connect_failure_discards` on a concrete failed connect. -/
theorem c6_connect_failure_discards_witness :
    ((fun _ : String => false) (⟨"s1", 0, true⟩ : SessionInfo).sessionId = false)
    ∧ ((∀ j ∈ (connectPhase [⟨"s1", 0, true⟩] (some ⟨"s1", 0, true⟩) (fun _ => false)).reg,
          j.sessionId ≠ (⟨"s1", 0, true⟩ : SessionInfo).sessionId)
      ∧ (connectPhase [⟨"s1", 0, true⟩] (some ⟨"s1", 0, true⟩) (fun _ => false)).launched = true
      ∧ (connectPhase [⟨"s1", 0, true⟩] (some ⟨"s1", 0, true⟩) (fun _ => false)).held = none
      ∧ (connectPhase [⟨"s1", 0, true⟩] (some ⟨"s1", 0, true⟩) (fun _ => false)).ops
          = [BrowserOp.connect (⟨"s1", 0, true⟩ : SessionInfo).sessionId, BrowserOp.launch]
      ∧ (∀ (w : World) (target id : String),
          (handleContent w target).ops.count (BrowserOp.connect id) ≤ 1)) :=
  ⟨rfl, c6_connect_failure_discards [⟨"s1", 0, true⟩] ⟨"s1", 0, true⟩ (fun _ => false) rfl⟩

end BrowserWorker
